import Mathlib

/-!
Shallow embedding of `src/httpd/apihandler.c` from the Armadito web-ui
repository: the API request pre-check pipeline, the request dispatcher,
the response builders and the token-keyed client registry.

External collaborators (libmicrohttpd, jansson, glib) are modelled by
their documented semantics: an HTTP connection is reduced to the header
values the code reads, a jansson `json_t` value is an inductive JSON
tree, and a `GHashTable` with string keys is an association list.
-/

set_option autoImplicit false

namespace ApiHandler

/-- Model of a jansson `json_t` value: integers, strings, booleans,
null, arrays and objects.  Objects keep their fields in insertion
order, as jansson does when dumping. -/
inductive Json where
  | jint (n : Int)
  | jstr (s : String)
  | jbool (b : Bool)
  | jnull
  | jarr (elems : List Json)
  | jobj (fields : List (String × Json))

/-- Body of an `MHD_Response`: either a raw byte buffer (the pre-built
standard error bodies, `MHD_RESPMEM_PERSISTENT`) or the serialized form
of a JSON value (the buffer produced by `json_dumps` and copied with
`MHD_RESPMEM_MUST_COPY`). -/
inductive response_body where
  | raw (s : String)
  | fromJson (j : Json)

/-- Model of a `struct MHD_Response`: a body plus the headers added
with `MHD_add_response_header`, in order of addition. -/
structure MHD_Response where
  body : response_body
  headers : List (String × String)

/- HTTP status code constants from libmicrohttpd. -/

def MHD_HTTP_OK : Nat := 200
def MHD_HTTP_BAD_REQUEST : Nat := 400
def MHD_HTTP_FORBIDDEN : Nat := 403
def MHD_HTTP_NOT_FOUND : Nat := 404
def MHD_HTTP_METHOD_NOT_ALLOWED : Nat := 405
def MHD_HTTP_UNSUPPORTED_MEDIA_TYPE : Nat := 415
def MHD_HTTP_UNPROCESSABLE_ENTITY : Nat := 422
def MHD_HTTP_INTERNAL_SERVER_ERROR : Nat := 500

/- Header name constants from libmicrohttpd and apihandler.c. -/

def MHD_HTTP_HEADER_CONTENT_TYPE : String := "Content-Type"
def MHD_HTTP_HEADER_CONNECTION : String := "Connection"
def MHD_HTTP_HEADER_ACCESS_CONTROL_ALLOW_ORIGIN : String := "Access-Control-Allow-Origin"
def API_TOKEN_HEADER : String := "X-Armadito-Token"
def API_VERSION_HEADER : String := "X-Armadito-Api-Version"
def API_VERSION : String := "armadito.v0"

/- The six standard error bodies (the JSON_xxx macros), byte for byte. -/

def JSON_400 : String := "\x7b\"code\":400, \"message\": \"Bad Request. Make sure your request has a X-Armadito-Token header and if POST request contains valid JSON\"\x7d"
def JSON_403 : String := "\x7b\"code\":403, \"message\": \"Request forbidden. Make sure your request has a User-Agent header\"\x7d"
def JSON_404 : String := "\x7b\"code\":404, \"message\": \"Not found\"\x7d"
def JSON_405 : String := "\x7b\"code\":405, \"message\": \"Method not allowed\"\x7d"
def JSON_415 : String := "\x7b\"code\":415, \"message\": \"Unsupported Media Type. Content-Type must be application/json\"\x7d"
def JSON_422 : String := "\x7b\"code\":422, \"message\": \"Unprocessable request. Make sure the JSON request is valid\"\x7d"

/-- Translation of `create_std_response`: wrap a persistent buffer and
add exactly two headers, Content-Type and Connection. -/
def create_std_response (json : String) : MHD_Response :=
  { body := .raw json
    headers := [(MHD_HTTP_HEADER_CONTENT_TYPE, "application/json"),
                (MHD_HTTP_HEADER_CONNECTION, "close")] }

/- The pre-built responses stored in `struct api_handler` by
`api_handler_new`, reused verbatim across requests. -/

def response_400 : MHD_Response := create_std_response JSON_400
def response_403 : MHD_Response := create_std_response JSON_403
def response_404 : MHD_Response := create_std_response JSON_404
def response_405 : MHD_Response := create_std_response JSON_405
def response_415 : MHD_Response := create_std_response JSON_415
def response_422 : MHD_Response := create_std_response JSON_422

/-- Modelled from the spec: `enum http_method` from httpd.h, which is
not under src/.  The spec says the HTTP surface uses methods GET and
POST and that an endpoint carries a set (bitmask) of accepted methods;
the bitwise test `(accepted_methods & method) == 0` becomes a set
membership test. -/
inductive http_method where
  | GET
  | POST
deriving DecidableEq

/-- Signature of a business callback (`process_cb_t`): it receives the
parsed request body (NULL when absent) and returns an int status
together with the response payload it may have produced (`*p_response`,
NULL when it produced none). -/
def process_cb_t : Type := Option Json → Int × Option Json

/-- Signature of a parameter checker (`check_cb_t`): it receives the
parsed request body (NULL when absent) and returns a nonzero int when
the parameters are invalid. -/
def check_cb_t : Type := Option Json → Int

/-- Translation of `struct api_endpoint`: one row of the endpoint
table.  `check_cb` is `none` where the C table stores NULL. -/
structure api_endpoint where
  path : String
  accepted_methods : List http_method
  need_token : Bool
  process_cb : process_cb_t
  check_cb : Option check_cb_t

/-- Translation of `api_endpoint_table`, parameterized by the external
business callbacks declared in api.h, which live outside the source
of this file.  The terminating NULL row becomes the end of the list. -/
def api_endpoint_table
    (register_process_cb unregister_process_cb ping_process_cb event_process_cb
     scan_process_cb status_process_cb browse_process_cb version_process_cb : process_cb_t)
    (scan_check_cb : check_cb_t) : List api_endpoint :=
  [ { path := "/register", accepted_methods := [.GET], need_token := false,
      process_cb := register_process_cb, check_cb := none },
    { path := "/unregister", accepted_methods := [.GET], need_token := true,
      process_cb := unregister_process_cb, check_cb := none },
    { path := "/ping", accepted_methods := [.GET], need_token := true,
      process_cb := ping_process_cb, check_cb := none },
    { path := "/event", accepted_methods := [.GET], need_token := true,
      process_cb := event_process_cb, check_cb := none },
    { path := "/scan", accepted_methods := [.POST], need_token := true,
      process_cb := scan_process_cb, check_cb := some scan_check_cb },
    { path := "/status", accepted_methods := [.GET], need_token := false,
      process_cb := status_process_cb, check_cb := none },
    { path := "/browse", accepted_methods := [.GET], need_token := false,
      process_cb := browse_process_cb, check_cb := none },
    { path := "/version", accepted_methods := [.GET], need_token := false,
      process_cb := version_process_cb, check_cb := none } ]

/-- Translation of `get_api_endpoint`: walk the table and return the
first row whose path compares equal with `strcmp`, or NULL. -/
def get_api_endpoint (table : List api_endpoint) (path : String) : Option api_endpoint :=
  table.find? (fun p => p.path == path)

/-- Model of an inbound request: the values `api_handler_serve` and
`api_handler_pre_check` read from the connection.  Header lookups
through `MHD_lookup_connection_value` become the Option fields; a
header that was sent maps to `some value`.  The Content-Type value is
kept as a character list because `api_get_content_type` scans it
character by character. -/
structure Request where
  method : http_method
  path : String
  user_agent : Option String
  token : Option String
  content_type : Option (List Char)
  post_data : String
  post_data_size : Nat

/-- Translation of `api_get_user_agent`. -/
def api_get_user_agent (r : Request) : Option String :=
  r.user_agent

/-- Translation of `api_get_token`. -/
def api_get_token (r : Request) : Option String :=
  r.token

/-- Model of `strchr(s, c)` on a character list: the index of the
first occurrence of `c`, or none.  The C pointer `param` corresponds
to `some i` and the pointer comparison `param > s` to `0 < i`. -/
def strchr (s : List Char) (c : Char) : Option Nat :=
  match s with
  | [] => none
  | a :: t => if a = c then some 0 else (strchr t c).map (· + 1)

/-- Translation of `api_get_content_type`: look up the Content-Type
header; when a `;` occurs at a positive offset, return the substring
before it, otherwise return a copy of the whole value. -/
def api_get_content_type (content_type : Option (List Char)) : Option (List Char) :=
  match content_type with
  | none => none
  | some s =>
    match strchr s ';' with
    | some i => if 0 < i then some (s.take i) else some s
    | none => some s

/-- Translation of `api_handler_pre_check`: the ordered gate sequence.
Returns the HTTP status together with the resolved endpoint
(`*p_endpoint`) and the pre-built error response (`*p_error_response`,
`none` on the OK path where the C leaves it unset). -/
def api_handler_pre_check (table : List api_endpoint) (r : Request) :
    Nat × Option api_endpoint × Option MHD_Response :=
  match get_api_endpoint table r.path with
  | none => (MHD_HTTP_NOT_FOUND, none, some response_404)
  | some endpoint =>
    if api_get_user_agent r = none then
      (MHD_HTTP_FORBIDDEN, some endpoint, some response_403)
    else if endpoint.need_token = true ∧ api_get_token r = none then
      (MHD_HTTP_BAD_REQUEST, some endpoint, some response_400)
    else if ¬ r.method ∈ endpoint.accepted_methods then
      (MHD_HTTP_METHOD_NOT_ALLOWED, some endpoint, some response_405)
    else if r.method = .POST ∧
        ¬ api_get_content_type r.content_type = some "application/json".toList then
      (MHD_HTTP_UNSUPPORTED_MEDIA_TYPE, some endpoint, some response_415)
    else
      (MHD_HTTP_OK, some endpoint, none)

/-- Translation of `api_queue_response`: dump the JSON payload, build a
response from the buffer and add the four headers.  jansson
`json_dumps` returns NULL on a NULL object, and the following
`strlen(json_buff)` then dereferences NULL; that crash is modelled as
`none`.  A non-NULL payload always yields the response with its four
headers (response creation by the transport is assumed to succeed). -/
def api_queue_response (http_status : Nat) (j_response : Option Json) :
    Option (Nat × MHD_Response) :=
  match j_response with
  | none => none
  | some j =>
    some (http_status,
      { body := .fromJson j
        headers := [(MHD_HTTP_HEADER_CONTENT_TYPE, "application/json"),
                    (MHD_HTTP_HEADER_CONNECTION, "close"),
                    (MHD_HTTP_HEADER_ACCESS_CONTROL_ALLOW_ORIGIN, "*"),
                    (API_VERSION_HEADER, API_VERSION)] })

/-- Translation of `api_queue_response_500`: wrap the callback payload
inside the generic internal-error object.  `json_object_set` appends
fields in insertion order: code, message, then data when the payload
is present. -/
def api_queue_response_500 (j_response : Option Json) : Option (Nat × MHD_Response) :=
  api_queue_response MHD_HTTP_INTERNAL_SERVER_ERROR
    (some (Json.jobj
      ([("code", Json.jint 500),
        ("message", Json.jstr "Request processing triggered an internal error")] ++
       (match j_response with
        | none => []
        | some p => [("data", p)]))))

/-- Observable outcome of one `api_handler_serve` invocation.
`check_arg` and `process_arg` record the `j_request` argument passed
to the parameter checker and to the business callback (`none` when the
callback was not invoked); `parse_invoked` records whether
`api_parse_json_request` ran; `queued` is the response handed to
`MHD_queue_response`, `none` when the success path crashed on a NULL
payload. -/
structure ServeResult where
  parse_invoked : Bool
  check_arg : Option (Option Json)
  process_arg : Option (Option Json)
  queued : Option (Nat × MHD_Response)

/-- Process stage of `api_handler_serve` (lines 274..286): invoke the
business callback, then queue a 500 envelope on failure or a 200
envelope on success. -/
def serve_process (ep : api_endpoint) (j_request : Option Json)
    (parsed : Bool) (carg : Option (Option Json)) : ServeResult :=
  let res := ep.process_cb j_request
  if res.1 ≠ 0 then
    { parse_invoked := parsed, check_arg := carg, process_arg := some j_request
      queued := api_queue_response_500 res.2 }
  else
    { parse_invoked := parsed, check_arg := carg, process_arg := some j_request
      queued := api_queue_response MHD_HTTP_OK res.2 }

/-- Parameter-check stage of `api_handler_serve` (lines 268..271): when
the endpoint declares a checker and it reports invalid parameters,
queue the standard 422 response; otherwise fall through to the
process stage. -/
def serve_check (ep : api_endpoint) (j_request : Option Json) (parsed : Bool) : ServeResult :=
  match ep.check_cb with
  | some check =>
    if check j_request ≠ 0 then
      { parse_invoked := parsed, check_arg := some j_request, process_arg := none
        queued := some (MHD_HTTP_UNPROCESSABLE_ENTITY, response_422) }
    else
      serve_process ep j_request parsed (some j_request)
  | none => serve_process ep j_request parsed none

/-- Translation of `api_handler_serve`, parameterized by the jansson
parser `json_loads` (an external collaborator), which receives the raw
body and its size and returns the parsed value or NULL.  Stages: run
the pre-check and queue its error response on failure; for a POST with
a non-empty body, parse it and queue the standard 400 response on
parse failure; then run the check and process stages.  The branch
where the pre-check returns OK without an endpoint cannot occur; it is
mapped to a crash outcome (the C would dereference NULL). -/
def api_handler_serve (table : List api_endpoint)
    (json_loads : String → Nat → Option Json) (r : Request) : ServeResult :=
  let pre := api_handler_pre_check table r
  if pre.1 ≠ MHD_HTTP_OK then
    { parse_invoked := false, check_arg := none, process_arg := none
      queued := pre.2.2.map (fun resp => (pre.1, resp)) }
  else
    match pre.2.1 with
    | none =>
      { parse_invoked := false, check_arg := none, process_arg := none, queued := none }
    | some endpoint =>
      if r.method = .POST ∧ r.post_data_size ≠ 0 then
        match json_loads r.post_data r.post_data_size with
        | none =>
          { parse_invoked := true, check_arg := none, process_arg := none
            queued := some (MHD_HTTP_BAD_REQUEST, response_400) }
        | some j => serve_check endpoint (some j) true
      else
        serve_check endpoint none false

/-! Client registry: a `GHashTable` keyed by the token string is
modelled as an association list with unique keys, newest entry
first. -/

/-- Model of `g_hash_table_lookup`: value of the entry whose key
matches, or NULL. -/
def g_hash_table_lookup {α : Type} : List (String × α) → String → Option α
  | [], _ => none
  | (k, v) :: t, key => if k = key then some v else g_hash_table_lookup t key

/-- Model of `g_hash_table_contains`. -/
def g_hash_table_contains {α : Type} (tbl : List (String × α)) (key : String) : Bool :=
  (g_hash_table_lookup tbl key).isSome

/-- Model of `g_hash_table_remove`: drop the entry holding the key and
report whether one was found. -/
def g_hash_table_remove {α : Type} : List (String × α) → String → Bool × List (String × α)
  | [], _ => (false, [])
  | (k, v) :: t, key =>
    if k = key then (true, t)
    else
      let res := g_hash_table_remove t key
      (res.1, (k, v) :: res.2)

/-- Model of `g_hash_table_insert`: any existing entry for the key is
replaced, otherwise the pair is added. -/
def g_hash_table_insert {α : Type} (tbl : List (String × α)) (key : String) (v : α) :
    List (String × α) :=
  (key, v) :: (g_hash_table_remove tbl key).2

/-- Translation of `api_handler_add_client`: fail without mutating when
the token is already registered, otherwise insert a copy of the token
with the client.  The int result and the updated table are returned. -/
def api_handler_add_client {α : Type} (tbl : List (String × α)) (token : String) (client : α) :
    Int × List (String × α) :=
  if g_hash_table_contains tbl token then (1, tbl)
  else (0, g_hash_table_insert tbl token client)

/-- Translation of `api_handler_get_client`: plain lookup (the miss is
logged, not raised). -/
def api_handler_get_client {α : Type} (tbl : List (String × α)) (token : String) : Option α :=
  g_hash_table_lookup tbl token

/-- Translation of `api_handler_remove_client`: remove and report 0,
or report 1 when the token was not registered. -/
def api_handler_remove_client {α : Type} (tbl : List (String × α)) (token : String) :
    Int × List (String × α) :=
  let res := g_hash_table_remove tbl token
  if res.1 = false then (1, res.2) else (0, res.2)

/-- Follows the spec words for the media-type gate target: the
substring of a Content-Type value before the first `;`, or the whole
value when no `;` occurs. -/
def spec_media_type (s : List Char) : List Char :=
  s.takeWhile (fun c => c ≠ ';')

/-- Placeholder process callback used to instantiate the endpoint
table on concrete inputs. -/
def demo_process : process_cb_t := fun _ => (0, some (Json.jobj []))

/-- Placeholder check callback used to instantiate the endpoint table
on concrete inputs. -/
def demo_check : check_cb_t := fun _ => 0

/-- The endpoint table instantiated with the placeholder callbacks. -/
def demo_table : List api_endpoint :=
  api_endpoint_table demo_process demo_process demo_process demo_process
    demo_process demo_process demo_process demo_process demo_check

theorem strchr_eq_none_iff {s : List Char} {c : Char} :
    strchr s c = none ↔ ∀ x ∈ s, x ≠ c := by
  induction s with
  | nil => simp [strchr]
  | cons a t ih =>
    rw [strchr]
    by_cases hac : a = c
    · simp [hac]
    · simp [hac, ih]

theorem takeWhile_of_strchr_none {s : List Char} {c : Char}
    (h : strchr s c = none) : s.takeWhile (fun a => !decide (a = c)) = s := by
  rw [List.takeWhile_eq_self_iff]
  intro x hx
  simpa using strchr_eq_none_iff.mp h x hx

theorem take_of_strchr_some {s : List Char} {c : Char} {i : Nat}
    (h : strchr s c = some i) : s.take i = s.takeWhile (fun a => !decide (a = c)) := by
  induction s generalizing i with
  | nil => simp [strchr] at h
  | cons a t ih =>
    rw [strchr] at h
    by_cases hac : a = c
    · simp [hac] at h
      simp [← h, hac, List.takeWhile]
    · simp [hac] at h
      obtain ⟨j, hj, hi⟩ := h
      simp [← hi, List.takeWhile, hac, ih hj]

theorem head_of_strchr_zero {s : List Char} {c : Char}
    (h : strchr s c = some 0) : ∃ t, s = c :: t := by
  cases s with
  | nil => simp [strchr] at h
  | cons a t =>
    rw [strchr] at h
    by_cases hac : a = c
    · exact ⟨t, by rw [hac]⟩
    · simp [hac] at h

theorem api_get_content_type_json_iff (ct : Option (List Char)) :
    api_get_content_type ct = some "application/json".toList ↔
      ∃ s, ct = some s ∧ spec_media_type s = "application/json".toList := by
  cases ct with
  | none => simp [api_get_content_type]
  | some s =>
    rcases h : strchr s ';' with _ | i
    · simp [api_get_content_type, h, spec_media_type, takeWhile_of_strchr_none h]
    · rcases Nat.eq_zero_or_pos i with hz | hpos
      · subst hz
        obtain ⟨t, ht⟩ := head_of_strchr_zero h
        subst ht
        simp only [api_get_content_type, h, spec_media_type, Nat.lt_irrefl, if_false,
          Option.some.injEq, exists_eq_left']
        constructor
        · intro hcontra
          have hh : (some ';' : Option Char) = "application/json".toList.head? :=
            congrArg List.head? hcontra
          exact absurd hh (by decide)
        · intro hcontra
          simp [List.takeWhile_cons] at hcontra
      · simp [api_get_content_type, h, hpos, spec_media_type, take_of_strchr_some h]

/-- C1: the pre-check applies its gates in a fixed order with
short-circuit on the first failure: 404 exactly on an unresolvable
path; 403 exactly when the path resolves but the User-Agent header is
missing; 400 exactly when, in addition, the endpoint requires a token
and the token header is missing (independent of the method); 405
exactly when the earlier gates pass but the method is not accepted;
415 exactly when the earlier gates pass, the method is POST and the
media type is invalid; OK exactly when every gate passes. -/
theorem pre_check_gate_order (table : List api_endpoint) (r : Request) :
    ((api_handler_pre_check table r).1 = MHD_HTTP_NOT_FOUND ↔
      get_api_endpoint table r.path = none) ∧
    ((api_handler_pre_check table r).1 = MHD_HTTP_FORBIDDEN ↔
      ∃ ep, get_api_endpoint table r.path = some ep ∧
        r.user_agent = none) ∧
    ((api_handler_pre_check table r).1 = MHD_HTTP_BAD_REQUEST ↔
      ∃ ep, get_api_endpoint table r.path = some ep ∧
        r.user_agent ≠ none ∧
        ep.need_token = true ∧ r.token = none) ∧
    ((api_handler_pre_check table r).1 = MHD_HTTP_METHOD_NOT_ALLOWED ↔
      ∃ ep, get_api_endpoint table r.path = some ep ∧
        r.user_agent ≠ none ∧
        ¬ (ep.need_token = true ∧ r.token = none) ∧
        ¬ r.method ∈ ep.accepted_methods) ∧
    ((api_handler_pre_check table r).1 = MHD_HTTP_UNSUPPORTED_MEDIA_TYPE ↔
      ∃ ep, get_api_endpoint table r.path = some ep ∧
        r.user_agent ≠ none ∧
        ¬ (ep.need_token = true ∧ r.token = none) ∧
        r.method ∈ ep.accepted_methods ∧
        r.method = .POST ∧
        ¬ api_get_content_type r.content_type = some "application/json".toList) ∧
    ((api_handler_pre_check table r).1 = MHD_HTTP_OK ↔
      ∃ ep, get_api_endpoint table r.path = some ep ∧
        r.user_agent ≠ none ∧
        ¬ (ep.need_token = true ∧ r.token = none) ∧
        r.method ∈ ep.accepted_methods ∧
        (r.method = .POST →
          api_get_content_type r.content_type = some "application/json".toList)) := by
  rcases h : get_api_endpoint table r.path with _ | ep <;>
    simp only [api_handler_pre_check, api_get_user_agent, api_get_token, h,
      MHD_HTTP_OK, MHD_HTTP_BAD_REQUEST, MHD_HTTP_FORBIDDEN, MHD_HTTP_NOT_FOUND,
      MHD_HTTP_METHOD_NOT_ALLOWED, MHD_HTTP_UNSUPPORTED_MEDIA_TYPE]
  · simp
  · split_ifs with h1 h2 h3 h4 <;> simp_all

/-- C2: for a POST request that reaches the media-type gate (the path
resolves, a User-Agent is present, the token gate passes and the
method is accepted), the pre-check returns OK exactly when a
Content-Type header is present whose substring before the first `;`
(or whole value, when no `;` occurs) is exactly `application/json`,
and it returns 415 exactly otherwise. -/
theorem media_type_gate (table : List api_endpoint) (r : Request) (ep : api_endpoint)
    (hep : get_api_endpoint table r.path = some ep)
    (hua : r.user_agent ≠ none)
    (htok : ¬ (ep.need_token = true ∧ r.token = none))
    (hm : r.method ∈ ep.accepted_methods)
    (hpost : r.method = .POST) :
    ((api_handler_pre_check table r).1 = MHD_HTTP_OK ↔
      ∃ s, r.content_type = some s ∧
        spec_media_type s = "application/json".toList) ∧
    ((api_handler_pre_check table r).1 = MHD_HTTP_UNSUPPORTED_MEDIA_TYPE ↔
      ¬ ∃ s, r.content_type = some s ∧
        spec_media_type s = "application/json".toList) := by
  rw [← api_get_content_type_json_iff]
  simp only [api_handler_pre_check, api_get_user_agent, api_get_token, hep, hua,
    if_false, htok, hm, hpost, not_true, true_and]
  rw [hpost] at hm
  split_ifs with h1 <;> simp_all [MHD_HTTP_OK, MHD_HTTP_UNSUPPORTED_MEDIA_TYPE]

/-- Concrete instance of C2: a POST to /scan with all headers present
and Content-Type `application/json; charset=utf-8` passes the
pre-check (the parameter after `;` is ignored). -/
theorem media_type_gate_witness :
    (api_handler_pre_check demo_table
      { method := .POST, path := "/scan", user_agent := some "curl",
        token := some "tok", content_type := some "application/json; charset=utf-8".toList,
        post_data := "", post_data_size := 0 }).1 = MHD_HTTP_OK :=
  (media_type_gate demo_table
      { method := .POST, path := "/scan", user_agent := some "curl",
        token := some "tok", content_type := some "application/json; charset=utf-8".toList,
        post_data := "", post_data_size := 0 }
      { path := "/scan", accepted_methods := [.POST], need_token := true,
        process_cb := demo_process, check_cb := some demo_check }
      rfl
      (by simp)
      (by simp)
      (by decide)
      rfl).1.mpr
    ⟨"application/json; charset=utf-8".toList, rfl, by decide⟩

/-- C3 counterexample: the pre-built standard 404 error response does
not carry all four fixed headers; it lacks both the CORS allow-origin
header and the API version marker (it only carries Content-Type and
Connection). -/
theorem std_response_404_lacks_headers :
    ¬ ((MHD_HTTP_HEADER_ACCESS_CONTROL_ALLOW_ORIGIN, "*") ∈ response_404.headers ∧
       (API_VERSION_HEADER, API_VERSION) ∈ response_404.headers) := by
  decide

/-- C3 amended: every response built by `api_queue_response` (the 200
and 500 envelopes) carries the four fixed headers Content-Type
application/json, Connection close, Access-Control-Allow-Origin * and
X-Armadito-Api-Version armadito.v0, while the pre-built standard error
responses built by `create_std_response` carry exactly the two headers
Content-Type application/json and Connection close. -/
theorem response_headers_split :
    (∀ (status : Nat) (j : Json), ∃ resp,
      api_queue_response status (some j) = some (status, resp) ∧
      (MHD_HTTP_HEADER_CONTENT_TYPE, "application/json") ∈ resp.headers ∧
      (MHD_HTTP_HEADER_CONNECTION, "close") ∈ resp.headers ∧
      (MHD_HTTP_HEADER_ACCESS_CONTROL_ALLOW_ORIGIN, "*") ∈ resp.headers ∧
      (API_VERSION_HEADER, API_VERSION) ∈ resp.headers) ∧
    (∀ body : String,
      (create_std_response body).headers =
        [(MHD_HTTP_HEADER_CONTENT_TYPE, "application/json"),
         (MHD_HTTP_HEADER_CONNECTION, "close")]) := by
  refine ⟨fun status j => ⟨_, rfl, ?_, ?_, ?_, ?_⟩, fun body => rfl⟩ <;> simp

theorem pre_check_ok_endpoint {table : List api_endpoint} {r : Request}
    (h : (api_handler_pre_check table r).1 = MHD_HTTP_OK) :
    ∃ ep, (api_handler_pre_check table r).2.1 = some ep := by
  rcases hep : get_api_endpoint table r.path with _ | ep
  · unfold api_handler_pre_check at h
    rw [hep] at h
    simp [MHD_HTTP_NOT_FOUND, MHD_HTTP_OK] at h
  · refine ⟨ep, ?_⟩
    unfold api_handler_pre_check
    simp only [hep]
    split_ifs <;> rfl

theorem serve_check_spec (ep : api_endpoint) (jreq : Option Json) (parsed : Bool)
    (j : Option Json) (h : (serve_check ep jreq parsed).process_arg = some j) :
    j = jreq ∧
    (serve_check ep jreq parsed).queued =
      (if (ep.process_cb jreq).1 ≠ 0 then api_queue_response_500 (ep.process_cb jreq).2
       else api_queue_response MHD_HTTP_OK (ep.process_cb jreq).2) := by
  unfold serve_check serve_process at h ⊢
  rcases hck : ep.check_cb with _ | ck <;> simp only [hck] at h ⊢ <;>
    split_ifs at h ⊢ <;> simp_all

theorem serve_process_spec (table : List api_endpoint)
    (json_loads : String → Nat → Option Json) (r : Request)
    (ep : api_endpoint) (jreq : Option Json)
    (hp : (api_handler_serve table json_loads r).process_arg = some jreq)
    (hep : (api_handler_pre_check table r).2.1 = some ep) :
    (api_handler_serve table json_loads r).queued =
      (if (ep.process_cb jreq).1 ≠ 0 then api_queue_response_500 (ep.process_cb jreq).2
       else api_queue_response MHD_HTTP_OK (ep.process_cb jreq).2) := by
  unfold api_handler_serve at hp ⊢
  by_cases h200 : (api_handler_pre_check table r).1 ≠ MHD_HTTP_OK
  · rw [if_pos h200] at hp
    exact absurd hp (by simp)
  · rw [if_neg h200] at hp ⊢
    simp only [hep] at hp ⊢
    by_cases hbody : r.method = http_method.POST ∧ r.post_data_size ≠ 0
    · rw [if_pos hbody] at hp ⊢
      rcases hl : json_loads r.post_data r.post_data_size with _ | jv <;>
        simp only [hl] at hp ⊢
      · exact absurd hp (by simp)
      · obtain ⟨hj, hq⟩ := serve_check_spec ep (some jv) true jreq hp
        subst hj
        exact hq
    · rw [if_neg hbody] at hp ⊢
      obtain ⟨hj, hq⟩ := serve_check_spec ep none false jreq hp
      subst hj
      exact hq

/-- Placeholder process callback that reports failure with a
diagnostic payload. -/
def demo_fail_process : process_cb_t := fun _ => (1, some (Json.jstr "diag"))

/-- Placeholder process callback that reports success without
producing a payload. -/
def demo_none_process : process_cb_t := fun _ => (0, none)

/-- Endpoint table whose /ping callback reports failure with a
diagnostic payload. -/
def demo_fail_table : List api_endpoint :=
  api_endpoint_table demo_process demo_process demo_fail_process demo_process
    demo_process demo_process demo_process demo_process demo_check

/-- Endpoint table whose /ping callback reports success with no
payload. -/
def demo_none_table : List api_endpoint :=
  api_endpoint_table demo_process demo_process demo_none_process demo_process
    demo_process demo_process demo_process demo_process demo_check

/-- A well-formed GET request to /ping. -/
def demo_ping_request : Request :=
  { method := .GET, path := "/ping", user_agent := some "curl",
    token := some "tok", content_type := none, post_data := "", post_data_size := 0 }

/-- C4: when the request reaches the business callback and the
callback reports failure, the dispatcher queues a 500 response whose
body is the object with code 500 and the fixed message, extended with
a data field holding the callback payload exactly when one was
produced; when the callback reports success with a payload, the
dispatcher queues a 200 response carrying that payload. -/
theorem process_envelopes (table : List api_endpoint)
    (json_loads : String → Nat → Option Json) (r : Request)
    (ep : api_endpoint) (jreq : Option Json)
    (hp : (api_handler_serve table json_loads r).process_arg = some jreq)
    (hep : (api_handler_pre_check table r).2.1 = some ep) :
    ((ep.process_cb jreq).1 ≠ 0 →
      (api_handler_serve table json_loads r).queued =
        some (MHD_HTTP_INTERNAL_SERVER_ERROR,
          { body := .fromJson (Json.jobj
              ([("code", Json.jint 500),
                ("message", Json.jstr "Request processing triggered an internal error")] ++
               (match (ep.process_cb jreq).2 with
                | none => []
                | some p => [("data", p)])))
            headers := [(MHD_HTTP_HEADER_CONTENT_TYPE, "application/json"),
                        (MHD_HTTP_HEADER_CONNECTION, "close"),
                        (MHD_HTTP_HEADER_ACCESS_CONTROL_ALLOW_ORIGIN, "*"),
                        (API_VERSION_HEADER, API_VERSION)] })) ∧
    (∀ p, ep.process_cb jreq = (0, some p) →
      (api_handler_serve table json_loads r).queued =
        some (MHD_HTTP_OK,
          { body := .fromJson p
            headers := [(MHD_HTTP_HEADER_CONTENT_TYPE, "application/json"),
                        (MHD_HTTP_HEADER_CONNECTION, "close"),
                        (MHD_HTTP_HEADER_ACCESS_CONTROL_ALLOW_ORIGIN, "*"),
                        (API_VERSION_HEADER, API_VERSION)] })) := by
  have hq := serve_process_spec table json_loads r ep jreq hp hep
  constructor
  · intro hret
    rw [hq, if_pos hret]
    rfl
  · intro p hps
    rw [hq, hps]
    simp [api_queue_response, MHD_HTTP_OK]

/-- Concrete instance of C4: a /ping whose callback fails with the
diagnostic payload "diag" yields the 500 envelope with that payload
under the data field. -/
theorem process_envelopes_witness :
    (api_handler_serve demo_fail_table (fun _ _ => none) demo_ping_request).queued =
      some (MHD_HTTP_INTERNAL_SERVER_ERROR,
        { body := .fromJson (Json.jobj
            [("code", Json.jint 500),
             ("message", Json.jstr "Request processing triggered an internal error"),
             ("data", Json.jstr "diag")])
          headers := [(MHD_HTTP_HEADER_CONTENT_TYPE, "application/json"),
                      (MHD_HTTP_HEADER_CONNECTION, "close"),
                      (MHD_HTTP_HEADER_ACCESS_CONTROL_ALLOW_ORIGIN, "*"),
                      (API_VERSION_HEADER, API_VERSION)] }) :=
  (process_envelopes demo_fail_table (fun _ _ => none) demo_ping_request
      { path := "/ping", accepted_methods := [.GET], need_token := true,
        process_cb := demo_fail_process, check_cb := none }
      none rfl rfl).1 (by decide)

/-- C10: reaching the success path of the dispatcher with a NULL
callback payload crashes (the serializer is applied without a null
guard), while a produced payload always yields a queued 200 response;
a non-null payload on success is thus a necessary precondition for the
success path to be safe. -/
theorem success_needs_payload (table : List api_endpoint)
    (json_loads : String → Nat → Option Json) (r : Request)
    (ep : api_endpoint) (jreq : Option Json)
    (hp : (api_handler_serve table json_loads r).process_arg = some jreq)
    (hep : (api_handler_pre_check table r).2.1 = some ep) :
    (ep.process_cb jreq = (0, none) →
      (api_handler_serve table json_loads r).queued = none) ∧
    (∀ p, ep.process_cb jreq = (0, some p) →
      ∃ resp, (api_handler_serve table json_loads r).queued = some (MHD_HTTP_OK, resp)) ∧
    api_queue_response MHD_HTTP_OK none = none := by
  have hq := serve_process_spec table json_loads r ep jreq hp hep
  refine ⟨?_, ?_, rfl⟩
  · intro hps
    rw [hq, hps]
    simp [api_queue_response]
  · intro p hps
    rw [hq, hps]
    exact ⟨{ body := .fromJson p,
             headers := [(MHD_HTTP_HEADER_CONTENT_TYPE, "application/json"),
                         (MHD_HTTP_HEADER_CONNECTION, "close"),
                         (MHD_HTTP_HEADER_ACCESS_CONTROL_ALLOW_ORIGIN, "*"),
                         (API_VERSION_HEADER, API_VERSION)] },
           by simp [api_queue_response, MHD_HTTP_OK]⟩

/-- Concrete instance of C10: a /ping whose callback succeeds with a
NULL payload makes the dispatcher crash before queueing anything. -/
theorem success_needs_payload_witness :
    (api_handler_serve demo_none_table (fun _ _ => none) demo_ping_request).queued = none :=
  (success_needs_payload demo_none_table (fun _ _ => none) demo_ping_request
      { path := "/ping", accepted_methods := [.GET], need_token := true,
        process_cb := demo_none_process, check_cb := none }
      none rfl rfl).1 rfl

/-- C7: a POST that passes the pre-check and carries a non-empty body
on which the JSON parser fails is answered with the standard 400
response, and neither the parameter checker nor the business callback
is invoked. -/
theorem invalid_json_post (table : List api_endpoint)
    (json_loads : String → Nat → Option Json) (r : Request)
    (hok : (api_handler_pre_check table r).1 = MHD_HTTP_OK)
    (hpost : r.method = .POST)
    (hsize : r.post_data_size ≠ 0)
    (hparse : json_loads r.post_data r.post_data_size = none) :
    (api_handler_serve table json_loads r).queued =
      some (MHD_HTTP_BAD_REQUEST, response_400) ∧
    (api_handler_serve table json_loads r).check_arg = none ∧
    (api_handler_serve table json_loads r).process_arg = none := by
  obtain ⟨ep, hep⟩ := pre_check_ok_endpoint hok
  unfold api_handler_serve
  rw [if_neg (by simp [hok])]
  simp only [hep]
  rw [if_pos ⟨hpost, hsize⟩]
  simp only [hparse]
  exact ⟨trivial, trivial, trivial⟩

/-- Concrete instance of C7: POST /scan with valid headers and the
body `{not valid json`, on which the parser fails, yields the standard
400 response without invoking any callback. -/
theorem invalid_json_post_witness :
    (api_handler_serve demo_table (fun _ _ => none)
      { method := .POST, path := "/scan", user_agent := some "curl",
        token := some "tok", content_type := some "application/json".toList,
        post_data := "\x7bnot valid json", post_data_size := 15 }).queued =
      some (MHD_HTTP_BAD_REQUEST, response_400) :=
  (invalid_json_post demo_table (fun _ _ => none)
      { method := .POST, path := "/scan", user_agent := some "curl",
        token := some "tok", content_type := some "application/json".toList,
        post_data := "\x7bnot valid json", post_data_size := 15 }
      rfl rfl (by decide) rfl).1

theorem serve_check_args (ep : api_endpoint) (jreq : Option Json) (parsed : Bool) :
    (serve_check ep jreq parsed).parse_invoked = parsed ∧
    ((serve_check ep jreq parsed).check_arg = none ∨
     (serve_check ep jreq parsed).check_arg = some jreq) ∧
    ((serve_check ep jreq parsed).process_arg = none ∨
     (serve_check ep jreq parsed).process_arg = some jreq) ∧
    ((∀ ck, ep.check_cb = some ck → ck jreq = 0) →
      (serve_check ep jreq parsed).process_arg = some jreq) ∧
    (∀ ck, ep.check_cb = some ck →
      (serve_check ep jreq parsed).check_arg = some jreq) := by
  unfold serve_check serve_process
  rcases hck : ep.check_cb with _ | ck <;> simp only [hck] <;>
    split_ifs with hc <;> refine ⟨rfl, ?_, ?_, ?_, ?_⟩ <;> simp_all

/-- C9: for a request whose method is not POST, or a POST with an
empty body, the raw body is never parsed: the serve outcome does not
depend on the parser at all, every invocation of the parameter checker
or of the business callback receives an absent parsed body, the
checker (when declared) is always invoked with an absent body once the
pre-check passes, and the business callback is invoked with an absent
body whenever the declared checker accepts (or none is declared). -/
theorem body_not_parsed (table : List api_endpoint)
    (json_loads : String → Nat → Option Json) (r : Request)
    (hnp : ¬ r.method = .POST ∨ r.post_data_size = 0) :
    (api_handler_serve table json_loads r).parse_invoked = false ∧
    (∀ loads', api_handler_serve table loads' r = api_handler_serve table json_loads r) ∧
    (∀ j, (api_handler_serve table json_loads r).check_arg = some j → j = none) ∧
    (∀ j, (api_handler_serve table json_loads r).process_arg = some j → j = none) ∧
    (∀ ep, (api_handler_pre_check table r).2.1 = some ep →
      (api_handler_pre_check table r).1 = MHD_HTTP_OK →
      (∀ ck, ep.check_cb = some ck → ck none = 0) →
      (api_handler_serve table json_loads r).process_arg = some (none : Option Json)) ∧
    (∀ ep ck, (api_handler_pre_check table r).2.1 = some ep →
      (api_handler_pre_check table r).1 = MHD_HTTP_OK →
      ep.check_cb = some ck →
      (api_handler_serve table json_loads r).check_arg = some (none : Option Json)) := by
  have hcond : ¬ (r.method = http_method.POST ∧ r.post_data_size ≠ 0) := by
    rcases hnp with h | h <;> simp [h]
  by_cases hok : (api_handler_pre_check table r).1 = MHD_HTTP_OK
  · obtain ⟨ep, hep⟩ := pre_check_ok_endpoint hok
    have hserve : ∀ loads' : String → Nat → Option Json,
        api_handler_serve table loads' r = serve_check ep none false := by
      intro loads'
      unfold api_handler_serve
      rw [if_neg (by simp [hok])]
      simp only [hep]
      rw [if_neg hcond]
    obtain ⟨h1, h2, h3, h4, h5⟩ := serve_check_args ep none false
    refine ⟨?_, ?_, ?_, ?_, ?_, ?_⟩
    · rw [hserve]
      exact h1
    · intro loads'
      rw [hserve, hserve]
    · intro j hj
      rw [hserve] at hj
      rcases h2 with h | h
      · rw [h] at hj
        cases hj
      · rw [h] at hj
        exact (Option.some.inj hj).symm
    · intro j hj
      rw [hserve] at hj
      rcases h3 with h | h
      · rw [h] at hj
        cases hj
      · rw [h] at hj
        exact (Option.some.inj hj).symm
    · intro ep' hep' _ hall
      rw [hep] at hep'
      cases hep'
      rw [hserve]
      exact h4 hall
    · intro ep' ck hep' _ hck
      rw [hep] at hep'
      cases hep'
      rw [hserve]
      exact h5 ck hck
  · have hserve : ∀ loads' : String → Nat → Option Json,
        api_handler_serve table loads' r =
          { parse_invoked := false, check_arg := none, process_arg := none
            queued := (api_handler_pre_check table r).2.2.map
              (fun resp => ((api_handler_pre_check table r).1, resp)) } := by
      intro loads'
      unfold api_handler_serve
      rw [if_pos hok]
    refine ⟨?_, ?_, ?_, ?_, ?_, ?_⟩
    · rw [hserve]
    · intro loads'
      rw [hserve, hserve]
    · intro j hj
      rw [hserve] at hj
      cases hj
    · intro j hj
      rw [hserve] at hj
      cases hj
    · intro ep' hep' h200 hall
      exact absurd h200 hok
    · intro ep' ck hep' h200 hck
      exact absurd h200 hok

/-- Concrete instance of C9: a GET to /ping (whose body is empty) has
its business callback invoked with an absent parsed body. -/
theorem body_not_parsed_witness :
    (api_handler_serve demo_table (fun _ _ => none) demo_ping_request).process_arg =
      some (none : Option Json) :=
  ((body_not_parsed demo_table (fun _ _ => none) demo_ping_request
      (.inl (by decide))).2.2.2.2.1)
    { path := "/ping", accepted_methods := [.GET], need_token := true,
      process_cb := demo_process, check_cb := none }
    rfl rfl (fun ck hc => by cases hc)

theorem g_hash_table_lookup_eq_none_iff {α : Type} {t : List (String × α)} {key : String} :
    g_hash_table_lookup t key = none ↔ key ∉ t.map Prod.fst := by
  induction t with
  | nil => simp [g_hash_table_lookup]
  | cons p t ih =>
    obtain ⟨k, v⟩ := p
    rw [g_hash_table_lookup]
    by_cases hk : k = key
    · simp [hk]
    · simp only [hk, if_false, List.map_cons, List.mem_cons]
      rw [ih]
      constructor
      · intro h
        exact not_or.mpr ⟨fun hc => hk hc.symm, h⟩
      · intro h
        exact (not_or.mp h).2

theorem g_hash_table_remove_of_absent {α : Type} {t : List (String × α)} {key : String}
    (h : g_hash_table_lookup t key = none) : g_hash_table_remove t key = (false, t) := by
  induction t with
  | nil => rfl
  | cons p t ih =>
    obtain ⟨k, v⟩ := p
    rw [g_hash_table_lookup] at h
    rw [g_hash_table_remove]
    by_cases hk : k = key
    · simp [hk] at h
    · simp only [hk, if_false] at h ⊢
      rw [ih h]

theorem g_hash_table_remove_found {α : Type} {t : List (String × α)} {key : String} {c : α}
    (h : g_hash_table_lookup t key = some c) : (g_hash_table_remove t key).1 = true := by
  induction t with
  | nil => simp [g_hash_table_lookup] at h
  | cons p t ih =>
    obtain ⟨k, v⟩ := p
    rw [g_hash_table_lookup] at h
    rw [g_hash_table_remove]
    by_cases hk : k = key
    · simp [hk]
    · simp only [hk, if_false] at h ⊢
      exact ih h

theorem g_hash_table_remove_sublist {α : Type} (t : List (String × α)) (key : String) :
    (g_hash_table_remove t key).2.Sublist t := by
  induction t with
  | nil => simp [g_hash_table_remove]
  | cons p t ih =>
    obtain ⟨k, v⟩ := p
    rw [g_hash_table_remove]
    by_cases hk : k = key
    · simp only [hk, if_true]
      exact List.sublist_cons_self (key, v) t
    · simp only [hk, if_false]
      exact ih.cons₂ (k, v)

theorem g_hash_table_lookup_remove_self {α : Type} {t : List (String × α)} {key : String}
    (hinv : (t.map Prod.fst).Nodup) :
    g_hash_table_lookup (g_hash_table_remove t key).2 key = none := by
  induction t with
  | nil => rfl
  | cons p t ih =>
    obtain ⟨k, v⟩ := p
    rw [g_hash_table_remove]
    simp only [List.map_cons, List.nodup_cons] at hinv
    by_cases hk : k = key
    · simp only [hk, if_true]
      rw [g_hash_table_lookup_eq_none_iff]
      rw [hk] at hinv
      exact hinv.1
    · simp only [hk, if_false]
      rw [g_hash_table_lookup]
      simp only [hk, if_false]
      exact ih hinv.2

/-- C5: adding a client under an already-present token reports failure
and leaves the registry unchanged, so the original client stays
reachable; adding under an absent token inserts the client and
reports success. -/
theorem add_client_spec {α : Type} (tbl : List (String × α)) (token : String) (client c : α) :
    (g_hash_table_lookup tbl token = some c →
      api_handler_add_client tbl token client = (1, tbl) ∧
      g_hash_table_lookup (api_handler_add_client tbl token client).2 token = some c) ∧
    (g_hash_table_lookup tbl token = none →
      (api_handler_add_client tbl token client).1 = 0 ∧
      (api_handler_add_client tbl token client).2 = (token, client) :: tbl ∧
      g_hash_table_lookup (api_handler_add_client tbl token client).2 token = some client) := by
  constructor
  · intro h
    have hc : g_hash_table_contains tbl token = true := by
      unfold g_hash_table_contains
      rw [h]
      rfl
    unfold api_handler_add_client
    rw [if_pos hc]
    exact ⟨rfl, h⟩
  · intro h
    have hc : ¬ g_hash_table_contains tbl token = true := by
      unfold g_hash_table_contains
      rw [h]
      simp
    unfold api_handler_add_client
    rw [if_neg hc]
    unfold g_hash_table_insert
    rw [g_hash_table_remove_of_absent h]
    refine ⟨rfl, rfl, ?_⟩
    rw [g_hash_table_lookup]
    simp

/-- Concrete instance of C5: a second add under the same token fails
and the original client is still returned by the lookup. -/
theorem add_client_spec_witness :
    api_handler_add_client [("tok", 1)] "tok" 2 = (1, [("tok", 1)]) ∧
    g_hash_table_lookup (api_handler_add_client [("tok", 1)] "tok" 2).2 "tok" = some 1 :=
  (add_client_spec [("tok", 1)] "tok" 2 1).1 rfl

/-- C6: removing an absent token reports failure and leaves the
registry unchanged; removing a present token reports success and makes
a subsequent lookup (which is a pure, non-mutating function) report
absence; lookup of an unregistered token returns absence rather than
failing. -/
theorem remove_get_spec {α : Type} (tbl : List (String × α)) (token : String)
    (hinv : (tbl.map Prod.fst).Nodup) :
    (g_hash_table_lookup tbl token = none →
      api_handler_remove_client tbl token = (1, tbl) ∧
      api_handler_get_client tbl token = none) ∧
    (∀ c, g_hash_table_lookup tbl token = some c →
      (api_handler_remove_client tbl token).1 = 0 ∧
      api_handler_get_client (api_handler_remove_client tbl token).2 token = none) := by
  constructor
  · intro h
    simp [api_handler_remove_client, g_hash_table_remove_of_absent h,
      api_handler_get_client, h]
  · intro c h
    simp [api_handler_remove_client, g_hash_table_remove_found h,
      api_handler_get_client, g_hash_table_lookup_remove_self hinv]

/-- Concrete instance of C6: after removing the only entry, the lookup
under its token reports absence. -/
theorem remove_get_spec_witness :
    (api_handler_remove_client [("tok", 5)] "tok").1 = 0 ∧
    api_handler_get_client (api_handler_remove_client [("tok", 5)] "tok").2 "tok" = none :=
  (remove_get_spec [("tok", 5)] "tok" (by simp)).2 5 rfl

/-- C8: the empty registry has unique tokens, every operation
preserves uniqueness of tokens, and add under a present token never
overwrites the existing entry. -/
theorem registry_invariant {α : Type} (tbl : List (String × α)) (token : String) (client : α)
    (hinv : (tbl.map Prod.fst).Nodup) :
    (([] : List (String × α)).map Prod.fst).Nodup ∧
    ((api_handler_add_client tbl token client).2.map Prod.fst).Nodup ∧
    ((api_handler_remove_client tbl token).2.map Prod.fst).Nodup ∧
    (∀ c, g_hash_table_lookup tbl token = some c →
      (api_handler_add_client tbl token client).2 = tbl ∧
      g_hash_table_lookup (api_handler_add_client tbl token client).2 token = some c) := by
  have hremove : ((api_handler_remove_client tbl token).2.map Prod.fst).Nodup := by
    have hsub : (g_hash_table_remove tbl token).2.Sublist tbl :=
      g_hash_table_remove_sublist tbl token
    have hn : ((g_hash_table_remove tbl token).2.map Prod.fst).Nodup :=
      List.Nodup.sublist (hsub.map Prod.fst) hinv
    have h2 : (api_handler_remove_client tbl token).2 = (g_hash_table_remove tbl token).2 := by
      simp only [api_handler_remove_client]
      split_ifs <;> rfl
    rw [h2]
    exact hn
  refine ⟨by simp, ?_, hremove, ?_⟩
  · unfold api_handler_add_client
    rcases hlk : g_hash_table_lookup tbl token with _ | c
    · have hc : ¬ g_hash_table_contains tbl token = true := by
        unfold g_hash_table_contains
        rw [hlk]
        simp
      rw [if_neg hc]
      unfold g_hash_table_insert
      rw [g_hash_table_remove_of_absent hlk]
      simp only [List.map_cons, List.nodup_cons]
      exact ⟨g_hash_table_lookup_eq_none_iff.mp hlk, hinv⟩
    · have hc : g_hash_table_contains tbl token = true := by
        unfold g_hash_table_contains
        rw [hlk]
        rfl
      rw [if_pos hc]
      exact hinv
  · intro c h
    have hc : g_hash_table_contains tbl token = true := by
      unfold g_hash_table_contains
      rw [h]
      rfl
    unfold api_handler_add_client
    rw [if_pos hc]
    exact ⟨rfl, h⟩

/-- Concrete instance of C8: add and remove keep tokens unique on a
two-entry registry. -/
theorem registry_invariant_witness :
    ((api_handler_add_client [("a", 1), ("b", 2)] "a" 3).2.map Prod.fst).Nodup ∧
    ((api_handler_remove_client [("a", 1), ("b", 2)] "a").2.map Prod.fst).Nodup :=
  ⟨(registry_invariant [("a", 1), ("b", 2)] "a" 3 (by simp)).2.1,
   (registry_invariant [("a", 1), ("b", 2)] "a" 3 (by simp)).2.2.1⟩

end ApiHandler
